import Mathlib

/-!
Shallow embedding of the NaturalSignals-WireScope diagnostics evaluator:
the `DiagnosticsEngine` class (`src/routes/simulator.ts`, third segment) and
the `ElectricalCalculations` helpers (`src/utils/calculations.ts`), together
with the data model of `src/types.ts`.

Modelling conventions:
- JS numbers are modelled as rationals (`ℚ`); note that Lean's rational
  division by zero yields `0`, which coincides with the source's explicit
  zero guards in `calculateVoltageDrop` / `calculatePhaseImbalance`.
- Optional TS fields become `Option`; JS truthiness guards on numbers
  (`if (!temp)`, `leakageCurrent && ...`) are modelled as an extra
  `= 0` test, since `0` is falsy in JS.
- The impure timestamp `new Date().toISOString()` is passed in as an
  explicit `now : String` argument.
- Human-readable `description` strings elide the `toFixed` numeric
  interpolation of the source; no verified property depends on them.
- The shared mutable accumulator arrays (`issues.push` / `recommendations.push`)
  are modelled by each check returning the pair of lists it appends, and
  `runDiagnostics` concatenating them in the source's call order.
- JS `Array.prototype.sort` with comparator `(a, b) => a.priority - b.priority`
  is modelled by the stable `List.mergeSort` on `priority ≤ priority`.
-/

inductive Severity where
  | critical
  | warning
  | info
deriving DecidableEq, Repr

inductive SystemType where
  | singlePhase
  | threePhase
  | dcSystem
deriving DecidableEq, Repr

structure Project where
  id : String
  name : String
  status : String
  systemType : SystemType
  voltageRating : ℚ
deriving DecidableEq, Repr

structure PhaseMeasurement where
  voltage : ℚ
  current : ℚ
  power : Option ℚ
  temperature : Option ℚ
deriving DecidableEq, Repr

structure NeutralMeasurement where
  current : ℚ
  voltage : Option ℚ
deriving DecidableEq, Repr

structure GroundMeasurement where
  resistance : ℚ
  leakageCurrent : Option ℚ
deriving DecidableEq, Repr

structure Measurement where
  projectId : String
  phaseA : Option PhaseMeasurement
  phaseB : Option PhaseMeasurement
  phaseC : Option PhaseMeasurement
  neutral : Option NeutralMeasurement
  ground : Option GroundMeasurement
  temperature : Option ℚ
  humidity : Option ℚ
  powerFactor : Option ℚ
  frequency : Option ℚ
deriving DecidableEq, Repr

structure Issue where
  code : String
  description : String
  severity : Severity
  affectedComponent : String
  possibleCauses : List String
deriving DecidableEq, Repr

structure Recommendation where
  priority : ℕ
  action : String
  estimatedTime : Option String
  toolsRequired : Option (List String)
  safetyPrecautions : Option (List String)
deriving DecidableEq, Repr

structure Diagnosis where
  projectId : String
  timestamp : String
  issues : List Issue
  recommendations : List Recommendation
  severity : Severity
  safetyAlert : Option String
deriving DecidableEq, Repr

namespace ElectricalCalculations

/-- `calculatePowerFactor` from `src/utils/calculations.ts`. -/
def calculatePowerFactor (realPower apparentPower : ℚ) : ℚ :=
  if apparentPower = 0 then 0
  else |realPower / apparentPower|

/-- `calculatePhaseImbalance` from `src/utils/calculations.ts`. -/
def calculatePhaseImbalance (phaseA phaseB phaseC : ℚ) : ℚ :=
  let avg := (phaseA + phaseB + phaseC) / 3
  if avg = 0 then 0
  else
    let maxDeviation := max |phaseA - avg| (max |phaseB - avg| |phaseC - avg|)
    (maxDeviation / avg) * 100

/-- `calculateVoltageDrop` from `src/utils/calculations.ts`. -/
def calculateVoltageDrop (nominalVoltage actualVoltage : ℚ) : ℚ :=
  if nominalVoltage = 0 then 0
  else ((nominalVoltage - actualVoltage) / nominalVoltage) * 100

end ElectricalCalculations

namespace DiagnosticsEngine

def VOLTAGE_TOLERANCE : ℚ := 0.1
def PHASE_IMBALANCE_LIMIT : ℚ := 2
def NEUTRAL_CURRENT_LIMIT : ℚ := 10
def TEMP_WARNING : ℚ := 60
def TEMP_CRITICAL : ℚ := 80
def GROUND_RESISTANCE_LIMIT : ℚ := 5

/-- The `NO_DATA` issue of the empty-measurements branch of `runDiagnostics`. -/
def noDataIssue : Issue :=
  { code := "NO_DATA"
    description := "No measurements available for analysis"
    severity := .info
    affectedComponent := "System"
    possibleCauses := ["No measurements have been recorded"] }

/-- The single recommendation of the empty-measurements branch of `runDiagnostics`. -/
def noDataRecommendation : Recommendation :=
  { priority := 1
    action := "Take initial measurements of the system"
    estimatedTime := some "15 minutes"
    toolsRequired := some ["Multimeter", "Clamp meter"]
    safetyPrecautions := some ["Ensure proper PPE", "Follow lockout/tagout procedures"] }

/-- The fixed critical safety-alert string of `runDiagnostics`. -/
def safetyAlertText : String :=
  "⚠️ CRITICAL SAFETY ISSUE DETECTED: Immediate action required. Ensure area is safe and consider disconnecting power if necessary."

/-- Issue pushed for phase A in `checkVoltageIssues` when `|voltageDrop| > 10`. -/
def voltageIssueA (voltageDrop : ℚ) : Issue :=
  { code := "VOLTAGE_OUT_OF_RANGE_A"
    description := "Phase A voltage deviates from nominal"
    severity := if |voltageDrop| > 15 then .critical else .warning
    affectedComponent := "Phase A"
    possibleCauses := ["Loose connection at main panel", "Undersized conductors",
      "Utility supply issue", "Excessive load on circuit", "Faulty transformer tap setting"] }

/-- Recommendation pushed for phase A in `checkVoltageIssues` when `|voltageDrop| > 10`. -/
def voltageRecommendationA (voltageDrop : ℚ) : Recommendation :=
  { priority := if |voltageDrop| > 15 then 1 else 2
    action := "Investigate voltage issue on Phase A"
    estimatedTime := some "30-60 minutes"
    toolsRequired := some ["Digital multimeter", "Infrared camera"]
    safetyPrecautions := some ["Work on de-energized circuits when possible",
      "Use appropriate PPE", "Test before touch"] }

/-- Issue pushed for phase B in `checkVoltageIssues` (no recommendation in the source). -/
def voltageIssueB (voltageDrop : ℚ) : Issue :=
  { code := "VOLTAGE_OUT_OF_RANGE_B"
    description := "Phase B voltage deviates from nominal"
    severity := if |voltageDrop| > 15 then .critical else .warning
    affectedComponent := "Phase B"
    possibleCauses := ["Similar to Phase A issues"] }

/-- Issue pushed for phase C in `checkVoltageIssues` (no recommendation in the source). -/
def voltageIssueC (voltageDrop : ℚ) : Issue :=
  { code := "VOLTAGE_OUT_OF_RANGE_C"
    description := "Phase C voltage deviates from nominal"
    severity := if |voltageDrop| > 15 then .critical else .warning
    affectedComponent := "Phase C"
    possibleCauses := ["Similar to Phase A issues"] }

/-- `checkVoltageIssues` (lines 533-612): per-phase voltage-drop checks.
Phase A pushes issue and recommendation; phases B and C push only issues. -/
def checkVoltageIssues (project : Project) (measurement : Measurement) :
    List Issue × List Recommendation :=
  let nominalVoltage := project.voltageRating
  let partA : List Issue × List Recommendation :=
    match measurement.phaseA with
    | none => ([], [])
    | some ph =>
      let voltageDrop := ElectricalCalculations.calculateVoltageDrop nominalVoltage ph.voltage
      if |voltageDrop| > 10 then ([voltageIssueA voltageDrop], [voltageRecommendationA voltageDrop])
      else ([], [])
  let partB : List Issue × List Recommendation :=
    match measurement.phaseB with
    | none => ([], [])
    | some ph =>
      let voltageDrop := ElectricalCalculations.calculateVoltageDrop nominalVoltage ph.voltage
      if |voltageDrop| > 10 then ([voltageIssueB voltageDrop], [])
      else ([], [])
  let partC : List Issue × List Recommendation :=
    match measurement.phaseC with
    | none => ([], [])
    | some ph =>
      let voltageDrop := ElectricalCalculations.calculateVoltageDrop nominalVoltage ph.voltage
      if |voltageDrop| > 10 then ([voltageIssueC voltageDrop], [])
      else ([], [])
  (partA.1 ++ partB.1 ++ partC.1, partA.2 ++ partB.2 ++ partC.2)

/-- Issue pushed by `checkPhaseOvercurrent` in `checkCurrentIssues`. -/
def overcurrentIssue (phaseName : String) (current maxCurrent : ℚ) : Issue :=
  { code := "OVERCURRENT_" ++ phaseName
    description := phaseName ++ " current exceeds safe operating limit"
    severity := if current > maxCurrent * 1.25 then .critical else .warning
    affectedComponent := phaseName
    possibleCauses := ["Circuit overload", "Short circuit condition", "Ground fault",
      "Motor starting current", "Harmonic distortion"] }

/-- Recommendation pushed by `checkPhaseOvercurrent` in `checkCurrentIssues`. -/
def overcurrentRecommendation (phaseName : String) (current maxCurrent : ℚ) : Recommendation :=
  { priority := if current > maxCurrent * 1.25 then 1 else 2
    action := "Reduce load on " ++ phaseName ++ " or investigate fault condition"
    estimatedTime := some "1-2 hours"
    toolsRequired := some ["Clamp meter", "Power quality analyzer"]
    safetyPrecautions := some ["Circuit may trip unexpectedly", "Check breaker ratings",
      "Monitor temperature of conductors"] }

/-- The local `checkPhaseOvercurrent` helper inside `checkCurrentIssues`
(default `maxCurrent = 100` is supplied at the call sites). -/
def checkPhaseOvercurrent (phase : Option PhaseMeasurement) (phaseName : String)
    (maxCurrent : ℚ) : List Issue × List Recommendation :=
  match phase with
  | none => ([], [])
  | some ph =>
    if ph.current > maxCurrent then
      ([overcurrentIssue phaseName ph.current maxCurrent],
       [overcurrentRecommendation phaseName ph.current maxCurrent])
    else ([], [])

/-- Issue pushed for a high neutral current in `checkCurrentIssues`. -/
def neutralIssue (current : ℚ) : Issue :=
  { code := "HIGH_NEUTRAL_CURRENT"
    description := "Neutral current indicates unbalanced load"
    severity := if current > 20 then .warning else .info
    affectedComponent := "Neutral conductor"
    possibleCauses := ["Unbalanced phase loads", "Harmonics (especially 3rd harmonic)",
      "Loose neutral connection", "Single-phase loads on three-phase system"] }

/-- Recommendation pushed for a high neutral current in `checkCurrentIssues`. -/
def neutralRecommendation : Recommendation :=
  { priority := 3
    action := "Balance loads across phases"
    estimatedTime := some "1-3 hours"
    toolsRequired := some ["Clamp meter", "Load schedule"]
    safetyPrecautions := some ["Monitor neutral conductor temperature"] }

/-- `checkCurrentIssues` (lines 614-683): per-phase overcurrent and neutral current. -/
def checkCurrentIssues (measurement : Measurement) : List Issue × List Recommendation :=
  let a := checkPhaseOvercurrent measurement.phaseA "Phase A" 100
  let b := checkPhaseOvercurrent measurement.phaseB "Phase B" 100
  let c := checkPhaseOvercurrent measurement.phaseC "Phase C" 100
  let neutralPart : List Issue × List Recommendation :=
    match measurement.neutral with
    | none => ([], [])
    | some n =>
      if n.current > NEUTRAL_CURRENT_LIMIT then ([neutralIssue n.current], [neutralRecommendation])
      else ([], [])
  (a.1 ++ b.1 ++ c.1 ++ neutralPart.1, a.2 ++ b.2 ++ c.2 ++ neutralPart.2)

/-- Issue pushed for voltage imbalance in `checkPhaseImbalance`. -/
def voltageImbalanceIssue (voltageImbalance : ℚ) : Issue :=
  { code := "VOLTAGE_IMBALANCE"
    description := "Voltage imbalance exceeds recommended limit"
    severity := if voltageImbalance > 5 then .warning else .info
    affectedComponent := "Three-phase system"
    possibleCauses := ["Unequal loading of phases", "Loose connection on one phase",
      "Utility supply imbalance", "Failed capacitor in power factor correction",
      "Single-phasing condition developing"] }

/-- Recommendation pushed for voltage imbalance in `checkPhaseImbalance`. -/
def voltageImbalanceRecommendation (voltageImbalance : ℚ) : Recommendation :=
  { priority := if voltageImbalance > 5 then 2 else 4
    action := "Investigate and correct phase imbalance"
    estimatedTime := some "2-4 hours"
    toolsRequired := some ["Three-phase power analyzer", "Infrared camera"]
    safetyPrecautions := some ["Check motor temperatures", "Monitor for unusual vibration"] }

/-- Issue pushed for current imbalance in `checkPhaseImbalance` (no recommendation). -/
def currentImbalanceIssue (currentImbalance : ℚ) : Issue :=
  { code := "CURRENT_IMBALANCE"
    description := "Current imbalance indicates uneven loading"
    severity := if currentImbalance > 25 then .warning else .info
    affectedComponent := "Load distribution"
    possibleCauses := ["Unbalanced single-phase loads", "Failed motor winding",
      "Loose connection causing high resistance"] }

/-- `checkPhaseImbalance` (lines 685-745): returns early unless all three phases
are present; then checks voltage imbalance (issue + recommendation) and current
imbalance (issue only). -/
def checkPhaseImbalance (measurement : Measurement) : List Issue × List Recommendation :=
  match measurement.phaseA, measurement.phaseB, measurement.phaseC with
  | some pa, some pb, some pc =>
    let voltageImbalance := ElectricalCalculations.calculatePhaseImbalance
      pa.voltage pb.voltage pc.voltage
    let voltPart : List Issue × List Recommendation :=
      if voltageImbalance > PHASE_IMBALANCE_LIMIT then
        ([voltageImbalanceIssue voltageImbalance], [voltageImbalanceRecommendation voltageImbalance])
      else ([], [])
    let currentImbalance := ElectricalCalculations.calculatePhaseImbalance
      pa.current pb.current pc.current
    let currPart : List Issue × List Recommendation :=
      if currentImbalance > 10 then ([currentImbalanceIssue currentImbalance], [])
      else ([], [])
    (voltPart.1 ++ currPart.1, voltPart.2 ++ currPart.2)
  | _, _, _ => ([], [])

/-- Critical-temperature issue of `checkComponentTemp`. -/
def criticalTempIssue (component : String) : Issue :=
  { code := "CRITICAL_TEMPERATURE"
    description := component ++ " temperature exceeds critical limit"
    severity := .critical
    affectedComponent := component
    possibleCauses := ["Severe overload condition", "Loose connection causing resistance heating",
      "Inadequate ventilation", "Undersized conductor", "Ambient temperature too high"] }

/-- Critical-temperature recommendation of `checkComponentTemp`. -/
def criticalTempRecommendation (component : String) : Recommendation :=
  { priority := 1
    action := "IMMEDIATE ACTION: Reduce load or disconnect " ++ component
    estimatedTime := some "Immediate"
    toolsRequired := some ["Infrared camera", "Temperature probe"]
    safetyPrecautions := some ["Risk of fire", "Allow cooling before handling",
      "Check insulation integrity"] }

/-- High-temperature warning issue of `checkComponentTemp` (no recommendation). -/
def highTempIssue (component : String) : Issue :=
  { code := "HIGH_TEMPERATURE"
    description := component ++ " temperature approaching limit"
    severity := .warning
    affectedComponent := component
    possibleCauses := ["Overload condition", "Poor connection", "Insufficient cable size"] }

/-- The local `checkComponentTemp` helper inside `checkTemperatureIssues`.
The JS guard `if (!temp) return` skips `undefined` and also the falsy `0`. -/
def checkComponentTemp (temp : Option ℚ) (component : String) :
    List Issue × List Recommendation :=
  match temp with
  | none => ([], [])
  | some t =>
    if t = 0 then ([], [])
    else if t > TEMP_CRITICAL then
      ([criticalTempIssue component], [criticalTempRecommendation component])
    else if t > TEMP_WARNING then ([highTempIssue component], [])
    else ([], [])

/-- The truthiness guard `if (measurement.phaseX?.temperature)` before the
per-phase `checkComponentTemp` call in `checkTemperatureIssues`. -/
def phaseTempPart (phase : Option PhaseMeasurement) (component : String) :
    List Issue × List Recommendation :=
  match phase with
  | none => ([], [])
  | some ph =>
    match ph.temperature with
    | none => ([], [])
    | some t => if t = 0 then ([], []) else checkComponentTemp (some t) component

/-- `checkTemperatureIssues` (lines 747-809): system temperature then each phase. -/
def checkTemperatureIssues (measurement : Measurement) : List Issue × List Recommendation :=
  let sys := checkComponentTemp measurement.temperature "System"
  let a := phaseTempPart measurement.phaseA "Phase A"
  let b := phaseTempPart measurement.phaseB "Phase B"
  let c := phaseTempPart measurement.phaseC "Phase C"
  (sys.1 ++ a.1 ++ b.1 ++ c.1, sys.2 ++ a.2 ++ b.2 ++ c.2)

/-- High-ground-resistance issue of `checkGroundingIssues`. -/
def groundResistanceIssue (resistance : ℚ) : Issue :=
  { code := "HIGH_GROUND_RESISTANCE"
    description := "Ground resistance exceeds safe limit"
    severity := if resistance > 25 then .critical else .warning
    affectedComponent := "Grounding system"
    possibleCauses := ["Corroded ground rod", "Dry soil conditions",
      "Inadequate ground rod depth", "Broken ground conductor", "Poor connection at ground bus"] }

/-- High-ground-resistance recommendation of `checkGroundingIssues`. -/
def groundResistanceRecommendation (resistance : ℚ) : Recommendation :=
  { priority := if resistance > 25 then 1 else 2
    action := "Improve grounding system resistance"
    estimatedTime := some "2-4 hours"
    toolsRequired := some ["Ground resistance tester", "Ground rod driver"]
    safetyPrecautions := some ["System vulnerable to voltage surges", "Risk of electric shock",
      "Test with circuit de-energized"] }

/-- Ground-fault issue of `checkGroundingIssues`. -/
def groundFaultIssue (leakageCurrent : ℚ) : Issue :=
  { code := "GROUND_FAULT"
    description := "Ground leakage current detected"
    severity := if leakageCurrent > 100 then .critical else .warning
    affectedComponent := "Insulation system"
    possibleCauses := ["Deteriorated insulation", "Moisture ingress", "Damaged equipment",
      "Capacitive coupling"] }

/-- Ground-fault recommendation of `checkGroundingIssues`. -/
def groundFaultRecommendation : Recommendation :=
  { priority := 1
    action := "Locate and repair ground fault"
    estimatedTime := some "2-6 hours"
    toolsRequired := some ["Insulation tester", "Ground fault locator"]
    safetyPrecautions := some ["Risk of electric shock", "Use GFCI protection"] }

/-- `checkGroundingIssues` (lines 811-868).  The leakage guard
`leakageCurrent && leakageCurrent > 30` is falsy at `0`. -/
def checkGroundingIssues (measurement : Measurement) : List Issue × List Recommendation :=
  match measurement.ground with
  | none => ([], [])
  | some g =>
    let resPart : List Issue × List Recommendation :=
      if g.resistance > GROUND_RESISTANCE_LIMIT then
        ([groundResistanceIssue g.resistance], [groundResistanceRecommendation g.resistance])
      else ([], [])
    let leakPart : List Issue × List Recommendation :=
      match g.leakageCurrent with
      | none => ([], [])
      | some l =>
        if l ≠ 0 ∧ l > 30 then ([groundFaultIssue l], [groundFaultRecommendation])
        else ([], [])
    (resPart.1 ++ leakPart.1, resPart.2 ++ leakPart.2)

/-- Low-power-factor issue of `checkPowerQuality`. -/
def powerFactorIssue (powerFactor : ℚ) : Issue :=
  { code := "LOW_POWER_FACTOR"
    description := "Power factor is below optimal range"
    severity := if powerFactor < 0.7 then .warning else .info
    affectedComponent := "Power system efficiency"
    possibleCauses := ["Inductive loads (motors, transformers)", "Under-loaded motors",
      "Lack of power factor correction", "Harmonics"] }

/-- Low-power-factor recommendation of `checkPowerQuality`. -/
def powerFactorRecommendation : Recommendation :=
  { priority := 3
    action := "Consider power factor correction"
    estimatedTime := some "1 day"
    toolsRequired := some ["Power quality analyzer", "Capacitor bank sizing calculator"]
    safetyPrecautions := some ["Capacitors store energy", "Discharge before handling"] }

/-- Frequency-deviation issue of `checkPowerQuality` (no recommendation). -/
def frequencyIssue (freqDeviation : ℚ) : Issue :=
  { code := "FREQUENCY_DEVIATION"
    description := "Frequency deviates from nominal"
    severity := if freqDeviation > 2 then .critical else .warning
    affectedComponent := "Supply frequency"
    possibleCauses := ["Generator governor issues", "Grid instability",
      "Local generation problems"] }

/-- `checkPowerQuality` (lines 870-916): power factor then frequency (50 Hz nominal). -/
def checkPowerQuality (measurement : Measurement) : List Issue × List Recommendation :=
  let pfPart : List Issue × List Recommendation :=
    match measurement.powerFactor with
    | none => ([], [])
    | some pf =>
      if pf < 0.85 then ([powerFactorIssue pf], [powerFactorRecommendation])
      else ([], [])
  let freqPart : List Issue × List Recommendation :=
    match measurement.frequency with
    | none => ([], [])
    | some f =>
      let freqDeviation := |f - 50|
      if freqDeviation > 0.5 then ([frequencyIssue freqDeviation], [])
      else ([], [])
  (pfPart.1 ++ freqPart.1, pfPart.2 ++ freqPart.2)

/-- Temperature-trend issue of `analyzeTrends`. -/
def tempTrendIssue : Issue :=
  { code := "TEMPERATURE_TREND"
    description := "Temperature has increased over recent measurements"
    severity := .warning
    affectedComponent := "System temperature"
    possibleCauses := ["Developing connection problem", "Increasing load",
      "Deteriorating insulation"] }

/-- Temperature-trend recommendation of `analyzeTrends`. -/
def tempTrendRecommendation : Recommendation :=
  { priority := 2
    action := "Monitor temperature trend closely"
    estimatedTime := some "Ongoing"
    toolsRequired := some ["Temperature logger", "Trend analysis software"]
    safetyPrecautions := some ["Set up temperature alarms"] }

/-- Current-trend issue of `analyzeTrends` (no recommendation). -/
def currentTrendIssue : Issue :=
  { code := "CURRENT_TREND"
    description := "Current draw has increased over time"
    severity := .info
    affectedComponent := "Load current"
    possibleCauses := ["Additional loads added", "Motor bearing wear",
      "Deteriorating equipment efficiency"] }

/-- The filtered, order-preserving temperature samples used by `analyzeTrends`. -/
def tempSamples (measurements : List Measurement) : List ℚ :=
  measurements.filterMap (·.temperature)

/-- The filtered, order-preserving phase-A current samples used by `analyzeTrends`. -/
def currentSamples (measurements : List Measurement) : List ℚ :=
  measurements.filterMap (fun m => m.phaseA.map (·.current))

/-- `analyzeTrends` (lines 918-977): temperature trend (first minus last of the
filtered samples, engaged only when more than 3 samples survive filtering) and
phase-A current trend (guarded on `measurements[0].phaseA` being present). -/
def analyzeTrends (measurements : List Measurement) : List Issue × List Recommendation :=
  let temps := tempSamples measurements
  let tempPart : List Issue × List Recommendation :=
    if temps.length > 3 then
      let tempIncrease := temps.headD 0 - temps.getLastD 0
      if tempIncrease > 10 then ([tempTrendIssue], [tempTrendRecommendation])
      else ([], [])
    else ([], [])
  let currentPart : List Issue × List Recommendation :=
    match measurements.head? with
    | none => ([], [])
    | some m0 =>
      match m0.phaseA with
      | none => ([], [])
      | some _ =>
        let currents := currentSamples measurements
        if currents.length > 3 then
          let currentIncrease := currents.headD 0 - currents.getLastD 0
          let percentIncrease := (currentIncrease / currents.getLastD 0) * 100
          if percentIncrease > 20 then ([currentTrendIssue], [])
          else ([], [])
        else ([], [])
  (tempPart.1 ++ currentPart.1, tempPart.2 ++ currentPart.2)

/-- Overall severity aggregation (lines 507-512): critical if any critical issue,
else warning if any warning issue, else info. -/
def overallSeverity (issues : List Issue) : Severity :=
  if issues.any (fun i => decide (i.severity = Severity.critical)) then .critical
  else if issues.any (fun i => decide (i.severity = Severity.warning)) then .warning
  else .info

/-- `runDiagnostics` (lines 450-531). -/
def runDiagnostics (project : Project) (measurements : List Measurement) (now : String) :
    Diagnosis :=
  match measurements with
  | [] =>
    { projectId := project.id
      timestamp := now
      issues := [noDataIssue]
      recommendations := [noDataRecommendation]
      severity := .info
      safetyAlert := none }
  | latestMeasurement :: _ =>
    let v := checkVoltageIssues project latestMeasurement
    let c := checkCurrentIssues latestMeasurement
    let pim :=
      if project.systemType = SystemType.threePhase then checkPhaseImbalance latestMeasurement
      else ([], [])
    let t := checkTemperatureIssues latestMeasurement
    let g := checkGroundingIssues latestMeasurement
    let pq := checkPowerQuality latestMeasurement
    let tr :=
      if measurements.length > 5 then analyzeTrends measurements
      else ([], [])
    let issues := v.1 ++ c.1 ++ pim.1 ++ t.1 ++ g.1 ++ pq.1 ++ tr.1
    let recommendations := v.2 ++ c.2 ++ pim.2 ++ t.2 ++ g.2 ++ pq.2 ++ tr.2
    let maxSeverity := overallSeverity issues
    { projectId := project.id
      timestamp := now
      issues := issues
      recommendations := recommendations.mergeSort (fun a b => decide (a.priority ≤ b.priority))
      severity := maxSeverity
      safetyAlert := if maxSeverity = Severity.critical then some safetyAlertText else none }

/-- The issue lists produced by the non-empty branch of `runDiagnostics`,
concatenated in the source's check order (definitionally equal to the
`issues` field of the result). -/
def allIssues (project : Project) (m : Measurement) (rest : List Measurement) : List Issue :=
  (checkVoltageIssues project m).1 ++ (checkCurrentIssues m).1 ++
  (if project.systemType = SystemType.threePhase then checkPhaseImbalance m else ([], [])).1 ++
  (checkTemperatureIssues m).1 ++ (checkGroundingIssues m).1 ++ (checkPowerQuality m).1 ++
  (if (m :: rest).length > 5 then analyzeTrends (m :: rest) else ([], [])).1

/-- The recommendation lists produced by the non-empty branch of
`runDiagnostics`, concatenated in check order, before sorting. -/
def allRecs (project : Project) (m : Measurement) (rest : List Measurement) :
    List Recommendation :=
  (checkVoltageIssues project m).2 ++ (checkCurrentIssues m).2 ++
  (if project.systemType = SystemType.threePhase then checkPhaseImbalance m else ([], [])).2 ++
  (checkTemperatureIssues m).2 ++ (checkGroundingIssues m).2 ++ (checkPowerQuality m).2 ++
  (if (m :: rest).length > 5 then analyzeTrends (m :: rest) else ([], [])).2

end DiagnosticsEngine

/-- The spec's voltage-drop formula (§4.1): `drop% = (nominal − actual)/nominal × 100`.
Stated from the spec's words, to be compared with
`ElectricalCalculations.calculateVoltageDrop` from the source.  (With Lean's
`x / 0 = 0` convention the two agree even at a zero nominal voltage.) -/
def specVoltageDrop (nominalVoltage actualVoltage : ℚ) : ℚ :=
  (nominalVoltage - actualVoltage) / nominalVoltage * 100

/-- A measurement with every optional field absent. -/
def blankMeasurement : Measurement :=
  { projectId := "p", phaseA := none, phaseB := none, phaseC := none, neutral := none,
    ground := none, temperature := none, humidity := none, powerFactor := none,
    frequency := none }

/-- A measurement that samples only the system temperature. -/
def withTemp (t : ℚ) : Measurement := { blankMeasurement with temperature := some t }

/-- A measurement that samples only phase A (voltage and current). -/
def withPhaseA (v c : ℚ) : Measurement :=
  { blankMeasurement with
    phaseA := some { voltage := v, current := c, power := none, temperature := none } }

/-- A single-phase 400 V project. -/
def pFourHundred : Project :=
  { id := "p1", name := "site", status := "active", systemType := .singlePhase,
    voltageRating := 400 }

/-- A single-phase 100 V project. -/
def pHundred : Project :=
  { id := "p2", name := "site", status := "active", systemType := .singlePhase,
    voltageRating := 100 }

/-- A project with a zero nominal voltage rating. -/
def pZero : Project :=
  { id := "p3", name := "site", status := "active", systemType := .singlePhase,
    voltageRating := 0 }

/-- Only phase B sampled, at 300 V (25 % below a 400 V nominal). -/
def mPhaseB300 : Measurement :=
  { blankMeasurement with
    phaseB := some { voltage := 300, current := 10, power := none, temperature := none } }

/-- Only phase A sampled, at 300 V (25 % below a 400 V nominal). -/
def mPhaseA300 : Measurement :=
  { blankMeasurement with
    phaseA := some { voltage := 300, current := 10, power := none, temperature := none } }

/-- A measurement with a 90 °C system temperature. -/
def mTemp90 : Measurement := withTemp 90

/-- Six measurements, newest first, with only two sampled temperatures
(55 °C newest, 40 °C oldest): the filtered list is `[55, 40]`. -/
def msTempSparse : List Measurement :=
  [withTemp 55, blankMeasurement, blankMeasurement, blankMeasurement, blankMeasurement,
   withTemp 40]

/-- Six measurements, newest first, with five sampled temperatures
falling from 55 °C (newest) to 40 °C (oldest). -/
def msTempDense : List Measurement :=
  [withTemp 55, withTemp 54, blankMeasurement, withTemp 42, withTemp 41, withTemp 40]

/-- Six measurements, newest first; the newest has no phase A, the other
five sample a phase-A current rising (chronologically) from 40 A to 50 A. -/
def msCurrentNoHead : List Measurement :=
  [blankMeasurement, withPhaseA 100 50, withPhaseA 100 45, withPhaseA 100 42,
   withPhaseA 100 40, withPhaseA 100 40]

/-- Six measurements, newest first, all sampling phase A; current rises
(chronologically) from 40 A to 50 A, a 25 % change. -/
def msCurrentDense : List Measurement :=
  [withPhaseA 100 50, withPhaseA 100 45, withPhaseA 100 42, withPhaseA 100 41,
   withPhaseA 100 40, withPhaseA 100 40]

open DiagnosticsEngine ElectricalCalculations

/-! ### Characterization of `runDiagnostics` on a non-empty history -/

theorem runDiagnostics_cons_issues (p : Project) (m : Measurement) (rest : List Measurement)
    (now : String) :
    (runDiagnostics p (m :: rest) now).issues = allIssues p m rest := rfl

theorem runDiagnostics_cons_recs (p : Project) (m : Measurement) (rest : List Measurement)
    (now : String) :
    (runDiagnostics p (m :: rest) now).recommendations =
      (allRecs p m rest).mergeSort (fun a b => decide (a.priority ≤ b.priority)) := rfl

theorem runDiagnostics_cons_severity (p : Project) (m : Measurement) (rest : List Measurement)
    (now : String) :
    (runDiagnostics p (m :: rest) now).severity = overallSeverity (allIssues p m rest) := rfl

theorem runDiagnostics_cons_alert (p : Project) (m : Measurement) (rest : List Measurement)
    (now : String) :
    (runDiagnostics p (m :: rest) now).safetyAlert =
      (if overallSeverity (allIssues p m rest) = Severity.critical then some safetyAlertText
       else none) := rfl

/-- The source's `calculateVoltageDrop` computes exactly the spec's formula
(also at a zero nominal voltage, by the `x / 0 = 0` convention). -/
theorem calculateVoltageDrop_eq_spec (nominalVoltage actualVoltage : ℚ) :
    calculateVoltageDrop nominalVoltage actualVoltage =
      specVoltageDrop nominalVoltage actualVoltage := by
  unfold calculateVoltageDrop specVoltageDrop
  split_ifs with h
  · rw [h]
    simp
  · rfl

/-! ### Per-check inventories of issue codes and recommendation priorities -/

theorem checkVoltageIssues_code (p : Project) (m : Measurement) :
    ∀ i ∈ (checkVoltageIssues p m).1,
      i.code = "VOLTAGE_OUT_OF_RANGE_A" ∨ i.code = "VOLTAGE_OUT_OF_RANGE_B" ∨
      i.code = "VOLTAGE_OUT_OF_RANGE_C" := by
  intro i hi
  simp only [checkVoltageIssues, List.mem_append] at hi
  rcases hi with (hi | hi) | hi
  · rcases hA : m.phaseA with _ | ph
    · rw [hA] at hi; simp at hi
    · rw [hA] at hi; dsimp only at hi; split_ifs at hi
      · simp at hi; subst hi; left; rfl
      · simp at hi
  · rcases hB : m.phaseB with _ | ph
    · rw [hB] at hi; simp at hi
    · rw [hB] at hi; dsimp only at hi; split_ifs at hi
      · simp at hi; subst hi; right; left; rfl
      · simp at hi
  · rcases hC : m.phaseC with _ | ph
    · rw [hC] at hi; simp at hi
    · rw [hC] at hi; dsimp only at hi; split_ifs at hi
      · simp at hi; subst hi; right; right; rfl
      · simp at hi

theorem checkVoltageIssues_rec_eq (p : Project) (m : Measurement) :
    (checkVoltageIssues p m).2 =
      (match m.phaseA with
       | none => []
       | some ph =>
         if |calculateVoltageDrop p.voltageRating ph.voltage| > 10
         then [voltageRecommendationA (calculateVoltageDrop p.voltageRating ph.voltage)]
         else []) := by
  rcases hA : m.phaseA with _ | phA <;>
  rcases hB : m.phaseB with _ | phB <;>
  rcases hC : m.phaseC with _ | phC <;>
    simp only [checkVoltageIssues, hA, hB, hC] <;>
    (first
      | (split_ifs <;> simp)
      | simp)

theorem checkVoltageIssues_rec (p : Project) (m : Measurement) :
    ∀ r ∈ (checkVoltageIssues p m).2, r.priority = 1 ∨ r.priority = 2 := by
  intro r hr
  rw [checkVoltageIssues_rec_eq] at hr
  rcases hA : m.phaseA with _ | ph
  · rw [hA] at hr; simp at hr
  · rw [hA] at hr; dsimp only at hr; split_ifs at hr
    · simp at hr; subst hr
      simp only [voltageRecommendationA]
      split_ifs <;> simp
    · simp at hr

theorem checkPhaseOvercurrent_code (phase : Option PhaseMeasurement) (phaseName : String)
    (maxCurrent : ℚ) :
    ∀ i ∈ (checkPhaseOvercurrent phase phaseName maxCurrent).1,
      i.code = "OVERCURRENT_" ++ phaseName := by
  intro i hi
  rcases phase with _ | ph
  · simp [checkPhaseOvercurrent] at hi
  · simp only [checkPhaseOvercurrent] at hi; split_ifs at hi
    · simp at hi; subst hi; rfl
    · simp at hi

theorem checkPhaseOvercurrent_rec (phase : Option PhaseMeasurement) (phaseName : String)
    (maxCurrent : ℚ) :
    ∀ r ∈ (checkPhaseOvercurrent phase phaseName maxCurrent).2,
      r.priority = 1 ∨ r.priority = 2 := by
  intro r hr
  rcases phase with _ | ph
  · simp [checkPhaseOvercurrent] at hr
  · simp only [checkPhaseOvercurrent] at hr; split_ifs at hr
    · simp at hr; subst hr
      simp only [overcurrentRecommendation]
      split_ifs <;> simp
    · simp at hr

theorem checkCurrentIssues_code (m : Measurement) :
    ∀ i ∈ (checkCurrentIssues m).1,
      i.code = "OVERCURRENT_Phase A" ∨ i.code = "OVERCURRENT_Phase B" ∨
      i.code = "OVERCURRENT_Phase C" ∨ i.code = "HIGH_NEUTRAL_CURRENT" := by
  intro i hi
  simp only [checkCurrentIssues, List.mem_append] at hi
  rcases hi with ((hi | hi) | hi) | hi
  · left; rw [checkPhaseOvercurrent_code _ _ _ i hi]; decide
  · right; left; rw [checkPhaseOvercurrent_code _ _ _ i hi]; decide
  · right; right; left; rw [checkPhaseOvercurrent_code _ _ _ i hi]; decide
  · rcases hn : m.neutral with _ | n
    · rw [hn] at hi; simp at hi
    · rw [hn] at hi; dsimp only at hi; split_ifs at hi
      · simp at hi; subst hi; right; right; right; rfl
      · simp at hi

theorem checkCurrentIssues_rec (m : Measurement) :
    ∀ r ∈ (checkCurrentIssues m).2,
      r.priority = 1 ∨ r.priority = 2 ∨ r.priority = 3 := by
  intro r hr
  simp only [checkCurrentIssues, List.mem_append] at hr
  rcases hr with ((hr | hr) | hr) | hr
  · rcases checkPhaseOvercurrent_rec _ _ _ r hr with h | h <;> simp [h]
  · rcases checkPhaseOvercurrent_rec _ _ _ r hr with h | h <;> simp [h]
  · rcases checkPhaseOvercurrent_rec _ _ _ r hr with h | h <;> simp [h]
  · rcases hn : m.neutral with _ | n
    · rw [hn] at hr; simp at hr
    · rw [hn] at hr; dsimp only at hr; split_ifs at hr
      · simp at hr; subst hr; simp [neutralRecommendation]
      · simp at hr

theorem checkPhaseImbalance_code (m : Measurement) :
    ∀ i ∈ (checkPhaseImbalance m).1,
      i.code = "VOLTAGE_IMBALANCE" ∨ i.code = "CURRENT_IMBALANCE" := by
  intro i hi
  rcases hA : m.phaseA with _ | pa <;> rcases hB : m.phaseB with _ | pb <;>
    rcases hC : m.phaseC with _ | pc <;>
    simp only [checkPhaseImbalance, hA, hB, hC] at hi <;>
    try simp at hi
  rcases hi with hi | hi
  · split_ifs at hi
    · simp at hi; subst hi; left; rfl
    · simp at hi
  · split_ifs at hi
    · simp at hi; subst hi; right; rfl
    · simp at hi

theorem checkPhaseImbalance_rec (m : Measurement) :
    ∀ r ∈ (checkPhaseImbalance m).2, r.priority = 2 ∨ r.priority = 4 := by
  intro r hr
  rcases hA : m.phaseA with _ | pa <;> rcases hB : m.phaseB with _ | pb <;>
    rcases hC : m.phaseC with _ | pc <;>
    simp only [checkPhaseImbalance, hA, hB, hC] at hr <;>
    try simp at hr
  rcases hr with hr | hr
  · split_ifs at hr
    · simp at hr; subst hr
      simp only [voltageImbalanceRecommendation]
      split_ifs <;> simp
    · simp at hr
  · split_ifs at hr <;> simp at hr

theorem checkComponentTemp_code (temp : Option ℚ) (component : String) :
    ∀ i ∈ (checkComponentTemp temp component).1,
      i.code = "CRITICAL_TEMPERATURE" ∨ i.code = "HIGH_TEMPERATURE" := by
  intro i hi
  rcases temp with _ | t
  · simp [checkComponentTemp] at hi
  · simp only [checkComponentTemp] at hi
    split_ifs at hi
    · simp at hi
    · simp at hi; subst hi; left; rfl
    · simp at hi; subst hi; right; rfl
    · simp at hi

theorem checkComponentTemp_rec (temp : Option ℚ) (component : String) :
    ∀ r ∈ (checkComponentTemp temp component).2, r.priority = 1 := by
  intro r hr
  rcases temp with _ | t
  · simp [checkComponentTemp] at hr
  · simp only [checkComponentTemp] at hr
    split_ifs at hr
    · simp at hr
    · simp at hr; subst hr; rfl
    · simp at hr
    · simp at hr

theorem phaseTempPart_code (phase : Option PhaseMeasurement) (component : String) :
    ∀ i ∈ (phaseTempPart phase component).1,
      i.code = "CRITICAL_TEMPERATURE" ∨ i.code = "HIGH_TEMPERATURE" := by
  intro i hi
  rcases phase with _ | ph
  · simp [phaseTempPart] at hi
  · simp only [phaseTempPart] at hi
    rcases ht : ph.temperature with _ | t
    · rw [ht] at hi; simp at hi
    · rw [ht] at hi; dsimp only at hi
      split_ifs at hi
      · simp at hi
      · exact checkComponentTemp_code (some t) component i hi

theorem phaseTempPart_rec (phase : Option PhaseMeasurement) (component : String) :
    ∀ r ∈ (phaseTempPart phase component).2, r.priority = 1 := by
  intro r hr
  rcases phase with _ | ph
  · simp [phaseTempPart] at hr
  · simp only [phaseTempPart] at hr
    rcases ht : ph.temperature with _ | t
    · rw [ht] at hr; simp at hr
    · rw [ht] at hr; dsimp only at hr
      split_ifs at hr
      · simp at hr
      · exact checkComponentTemp_rec (some t) component r hr

theorem checkTemperatureIssues_code (m : Measurement) :
    ∀ i ∈ (checkTemperatureIssues m).1,
      i.code = "CRITICAL_TEMPERATURE" ∨ i.code = "HIGH_TEMPERATURE" := by
  intro i hi
  simp only [checkTemperatureIssues, List.mem_append] at hi
  rcases hi with ((hi | hi) | hi) | hi
  · exact checkComponentTemp_code _ _ i hi
  · exact phaseTempPart_code _ _ i hi
  · exact phaseTempPart_code _ _ i hi
  · exact phaseTempPart_code _ _ i hi

theorem checkTemperatureIssues_rec (m : Measurement) :
    ∀ r ∈ (checkTemperatureIssues m).2, r.priority = 1 := by
  intro r hr
  simp only [checkTemperatureIssues, List.mem_append] at hr
  rcases hr with ((hr | hr) | hr) | hr
  · exact checkComponentTemp_rec _ _ r hr
  · exact phaseTempPart_rec _ _ r hr
  · exact phaseTempPart_rec _ _ r hr
  · exact phaseTempPart_rec _ _ r hr

theorem checkGroundingIssues_code (m : Measurement) :
    ∀ i ∈ (checkGroundingIssues m).1,
      i.code = "HIGH_GROUND_RESISTANCE" ∨ i.code = "GROUND_FAULT" := by
  intro i hi
  rcases hg : m.ground with _ | g
  · simp [checkGroundingIssues, hg] at hi
  · simp only [checkGroundingIssues, hg, List.mem_append] at hi
    rcases hi with hi | hi
    · split_ifs at hi
      · simp at hi; subst hi; left; rfl
      · simp at hi
    · rcases hl : g.leakageCurrent with _ | l
      · rw [hl] at hi; simp at hi
      · rw [hl] at hi; dsimp only at hi
        split_ifs at hi
        · simp at hi; subst hi; right; rfl
        · simp at hi

theorem checkGroundingIssues_rec (m : Measurement) :
    ∀ r ∈ (checkGroundingIssues m).2, r.priority = 1 ∨ r.priority = 2 := by
  intro r hr
  rcases hg : m.ground with _ | g
  · simp [checkGroundingIssues, hg] at hr
  · simp only [checkGroundingIssues, hg, List.mem_append] at hr
    rcases hr with hr | hr
    · split_ifs at hr
      · simp at hr; subst hr
        simp only [groundResistanceRecommendation]
        split_ifs <;> simp
      · simp at hr
    · rcases hl : g.leakageCurrent with _ | l
      · rw [hl] at hr; simp at hr
      · rw [hl] at hr; dsimp only at hr
        split_ifs at hr
        · simp at hr; subst hr; left; rfl
        · simp at hr

theorem checkPowerQuality_code (m : Measurement) :
    ∀ i ∈ (checkPowerQuality m).1,
      i.code = "LOW_POWER_FACTOR" ∨ i.code = "FREQUENCY_DEVIATION" := by
  intro i hi
  simp only [checkPowerQuality, List.mem_append] at hi
  rcases hi with hi | hi
  · rcases hp : m.powerFactor with _ | pf
    · rw [hp] at hi; simp at hi
    · rw [hp] at hi; dsimp only at hi
      split_ifs at hi
      · simp at hi; subst hi; left; rfl
      · simp at hi
  · rcases hf : m.frequency with _ | f
    · rw [hf] at hi; simp at hi
    · rw [hf] at hi; dsimp only at hi
      split_ifs at hi
      · simp at hi; subst hi; right; rfl
      · simp at hi

theorem checkPowerQuality_rec (m : Measurement) :
    ∀ r ∈ (checkPowerQuality m).2, r.priority = 3 := by
  intro r hr
  simp only [checkPowerQuality, List.mem_append] at hr
  rcases hr with hr | hr
  · rcases hp : m.powerFactor with _ | pf
    · rw [hp] at hr; simp at hr
    · rw [hp] at hr; dsimp only at hr
      split_ifs at hr
      · simp at hr; subst hr; rfl
      · simp at hr
  · rcases hf : m.frequency with _ | f
    · rw [hf] at hr; simp at hr
    · rw [hf] at hr; dsimp only at hr
      split_ifs at hr <;> simp at hr

theorem analyzeTrends_code (measurements : List Measurement) :
    ∀ i ∈ (analyzeTrends measurements).1,
      i.code = "TEMPERATURE_TREND" ∨ i.code = "CURRENT_TREND" := by
  intro i hi
  simp only [analyzeTrends, List.mem_append] at hi
  rcases hi with hi | hi
  · split_ifs at hi
    · simp at hi; subst hi; left; rfl
    · simp at hi
    · simp at hi
  · rcases h0 : measurements.head? with _ | m0
    · rw [h0] at hi; simp at hi
    · rw [h0] at hi; dsimp only at hi
      rcases hA : m0.phaseA with _ | ph
      · rw [hA] at hi; simp at hi
      · rw [hA] at hi; dsimp only at hi
        split_ifs at hi
        · simp at hi; subst hi; right; rfl
        · simp at hi
        · simp at hi

theorem analyzeTrends_rec (measurements : List Measurement) :
    ∀ r ∈ (analyzeTrends measurements).2, r = tempTrendRecommendation := by
  intro r hr
  simp only [analyzeTrends, List.mem_append] at hr
  rcases hr with hr | hr
  · split_ifs at hr
    · simp at hr; exact hr
    · simp at hr
    · simp at hr
  · rcases h0 : measurements.head? with _ | m0
    · rw [h0] at hr; simp at hr
    · rw [h0] at hr; dsimp only at hr
      rcases hA : m0.phaseA with _ | ph
      · rw [hA] at hr; simp at hr
      · rw [hA] at hr; dsimp only at hr
        split_ifs at hr <;> simp at hr

/-! ### Master lemmas over the concatenated check results -/

theorem filter_code_nil {l : List Issue} {s : String} (h : ∀ i ∈ l, i.code ≠ s) :
    l.filter (fun i => i.code == s) = [] := by
  rw [List.filter_eq_nil_iff]
  intro a ha
  simpa using h a ha

theorem allIssues_code (p : Project) (m : Measurement) (rest : List Measurement) :
    ∀ i ∈ allIssues p m rest,
      (i.code = "VOLTAGE_OUT_OF_RANGE_A" ∨ i.code = "VOLTAGE_OUT_OF_RANGE_B" ∨
       i.code = "VOLTAGE_OUT_OF_RANGE_C" ∨ i.code = "OVERCURRENT_Phase A" ∨
       i.code = "OVERCURRENT_Phase B" ∨ i.code = "OVERCURRENT_Phase C" ∨
       i.code = "HIGH_NEUTRAL_CURRENT" ∨ i.code = "CRITICAL_TEMPERATURE" ∨
       i.code = "HIGH_TEMPERATURE" ∨ i.code = "HIGH_GROUND_RESISTANCE" ∨
       i.code = "GROUND_FAULT" ∨ i.code = "LOW_POWER_FACTOR" ∨
       i.code = "FREQUENCY_DEVIATION") ∨
      (p.systemType = SystemType.threePhase ∧
        (i.code = "VOLTAGE_IMBALANCE" ∨ i.code = "CURRENT_IMBALANCE")) ∨
      ((m :: rest).length > 5 ∧
        (i.code = "TEMPERATURE_TREND" ∨ i.code = "CURRENT_TREND")) := by
  intro i hi
  simp only [allIssues, List.mem_append] at hi
  rcases hi with (((((hi | hi) | hi) | hi) | hi) | hi) | hi
  · left
    rcases checkVoltageIssues_code p m i hi with h | h | h <;> rw [h] <;> simp
  · left
    rcases checkCurrentIssues_code m i hi with h | h | h | h <;> rw [h] <;> simp
  · split_ifs at hi with hsys
    · right; left; exact ⟨hsys, checkPhaseImbalance_code m i hi⟩
    · simp at hi
  · left
    rcases checkTemperatureIssues_code m i hi with h | h <;> rw [h] <;> simp
  · left
    rcases checkGroundingIssues_code m i hi with h | h <;> rw [h] <;> simp
  · left
    rcases checkPowerQuality_code m i hi with h | h <;> rw [h] <;> simp
  · split_ifs at hi with hlen
    · right; right; exact ⟨hlen, analyzeTrends_code _ i hi⟩
    · simp at hi

theorem allRecs_priority (p : Project) (m : Measurement) (rest : List Measurement) :
    ∀ r ∈ allRecs p m rest,
      r.priority = 1 ∨ r.priority = 2 ∨ r.priority = 3 ∨ r.priority = 4 := by
  intro r hr
  simp only [allRecs, List.mem_append] at hr
  rcases hr with (((((hr | hr) | hr) | hr) | hr) | hr) | hr
  · rcases checkVoltageIssues_rec p m r hr with h | h <;> simp [h]
  · rcases checkCurrentIssues_rec m r hr with h | h | h <;> simp [h]
  · split_ifs at hr with hsys
    · rcases checkPhaseImbalance_rec m r hr with h | h <;> simp [h]
    · simp at hr
  · simp [checkTemperatureIssues_rec m r hr]
  · rcases checkGroundingIssues_rec m r hr with h | h <;> simp [h]
  · simp [checkPowerQuality_rec m r hr]
  · split_ifs at hr with hlen
    · rw [analyzeTrends_rec _ r hr]; simp [tempTrendRecommendation]
    · simp at hr

theorem allIssues_filter_voltage (p : Project) (m : Measurement) (rest : List Measurement)
    (s : String)
    (hs : s = "VOLTAGE_OUT_OF_RANGE_A" ∨ s = "VOLTAGE_OUT_OF_RANGE_B" ∨
          s = "VOLTAGE_OUT_OF_RANGE_C") :
    (allIssues p m rest).filter (fun i => i.code == s) =
      (checkVoltageIssues p m).1.filter (fun i => i.code == s) := by
  unfold allIssues
  rw [List.filter_append, List.filter_append, List.filter_append, List.filter_append,
      List.filter_append, List.filter_append]
  have hc : (checkCurrentIssues m).1.filter (fun i => i.code == s) = [] := by
    refine filter_code_nil fun a ha => ?_
    rcases checkCurrentIssues_code m a ha with h | h | h | h <;>
      rcases hs with h2 | h2 | h2 <;> simp_all
  have hpi : ((if p.systemType = SystemType.threePhase then checkPhaseImbalance m
      else ([], [])).1).filter (fun i => i.code == s) = [] := by
    split_ifs
    · refine filter_code_nil fun a ha => ?_
      rcases checkPhaseImbalance_code m a ha with h | h <;>
        rcases hs with h2 | h2 | h2 <;> simp_all
    · simp
  have ht : (checkTemperatureIssues m).1.filter (fun i => i.code == s) = [] := by
    refine filter_code_nil fun a ha => ?_
    rcases checkTemperatureIssues_code m a ha with h | h <;>
      rcases hs with h2 | h2 | h2 <;> simp_all
  have hg : (checkGroundingIssues m).1.filter (fun i => i.code == s) = [] := by
    refine filter_code_nil fun a ha => ?_
    rcases checkGroundingIssues_code m a ha with h | h <;>
      rcases hs with h2 | h2 | h2 <;> simp_all
  have hpq : (checkPowerQuality m).1.filter (fun i => i.code == s) = [] := by
    refine filter_code_nil fun a ha => ?_
    rcases checkPowerQuality_code m a ha with h | h <;>
      rcases hs with h2 | h2 | h2 <;> simp_all
  have htr : ((if (m :: rest).length > 5 then analyzeTrends (m :: rest)
      else ([], [])).1).filter (fun i => i.code == s) = [] := by
    split_ifs
    · refine filter_code_nil fun a ha => ?_
      rcases analyzeTrends_code _ a ha with h | h <;>
        rcases hs with h2 | h2 | h2 <;> simp_all
    · simp
  rw [hc, hpi, ht, hg, hpq, htr]
  simp

theorem checkVoltageIssues_filterA (p : Project) (m : Measurement) :
    (checkVoltageIssues p m).1.filter (fun i => i.code == "VOLTAGE_OUT_OF_RANGE_A") =
      (match m.phaseA with
       | none => []
       | some ph =>
         if |calculateVoltageDrop p.voltageRating ph.voltage| > 10
         then [voltageIssueA (calculateVoltageDrop p.voltageRating ph.voltage)]
         else []) := by
  rcases hA : m.phaseA with _ | phA <;> rcases hB : m.phaseB with _ | phB <;>
    rcases hC : m.phaseC with _ | phC <;>
    simp only [checkVoltageIssues, hA, hB, hC] <;>
    (first
      | (split_ifs <;> simp [voltageIssueA, voltageIssueB, voltageIssueC])
      | simp)

theorem checkVoltageIssues_filterB (p : Project) (m : Measurement) :
    (checkVoltageIssues p m).1.filter (fun i => i.code == "VOLTAGE_OUT_OF_RANGE_B") =
      (match m.phaseB with
       | none => []
       | some ph =>
         if |calculateVoltageDrop p.voltageRating ph.voltage| > 10
         then [voltageIssueB (calculateVoltageDrop p.voltageRating ph.voltage)]
         else []) := by
  rcases hA : m.phaseA with _ | phA <;> rcases hB : m.phaseB with _ | phB <;>
    rcases hC : m.phaseC with _ | phC <;>
    simp only [checkVoltageIssues, hA, hB, hC] <;>
    (first
      | (split_ifs <;> simp [voltageIssueA, voltageIssueB, voltageIssueC])
      | simp)

theorem checkVoltageIssues_filterC (p : Project) (m : Measurement) :
    (checkVoltageIssues p m).1.filter (fun i => i.code == "VOLTAGE_OUT_OF_RANGE_C") =
      (match m.phaseC with
       | none => []
       | some ph =>
         if |calculateVoltageDrop p.voltageRating ph.voltage| > 10
         then [voltageIssueC (calculateVoltageDrop p.voltageRating ph.voltage)]
         else []) := by
  rcases hA : m.phaseA with _ | phA <;> rcases hB : m.phaseB with _ | phB <;>
    rcases hC : m.phaseC with _ | phC <;>
    simp only [checkVoltageIssues, hA, hB, hC] <;>
    (first
      | (split_ifs <;> simp [voltageIssueA, voltageIssueB, voltageIssueC])
      | simp)

/-! ### Claim theorems -/

/-- C1: for every project, `runDiagnostics` on an empty measurement sequence
returns exactly one issue, with code `NO_DATA` and severity `info`, exactly one
recommendation, overall severity `info`, and no safety alert. -/
theorem noData_diagnosis (p : Project) (now : String) :
    (runDiagnostics p [] now).issues.map (fun i => (i.code, i.severity)) =
      [("NO_DATA", Severity.info)] ∧
    (runDiagnostics p [] now).recommendations.length = 1 ∧
    (runDiagnostics p [] now).severity = Severity.info ∧
    (runDiagnostics p [] now).safetyAlert = none :=
  ⟨rfl, rfl, rfl, rfl⟩

/-- C4: the safety alert equals the fixed critical-alert string iff the overall
severity is critical; when the severity is not critical the alert is absent. -/
theorem safetyAlert_iff_critical (p : Project) (ms : List Measurement) (now : String) :
    ((runDiagnostics p ms now).safetyAlert = some safetyAlertText ↔
      (runDiagnostics p ms now).severity = Severity.critical) ∧
    ((runDiagnostics p ms now).severity ≠ Severity.critical →
      (runDiagnostics p ms now).safetyAlert = none) := by
  cases ms with
  | nil =>
    refine ⟨⟨fun h => ?_, fun h => ?_⟩, fun _ => rfl⟩
    · simp [runDiagnostics] at h
    · simp [runDiagnostics] at h
  | cons m rest =>
    rw [runDiagnostics_cons_alert, runDiagnostics_cons_severity]
    by_cases h : overallSeverity (allIssues p m rest) = Severity.critical
    · simp [h]
    · simp [h]

/-- C4 witness: at a concrete non-critical input the safety alert is absent. -/
theorem safetyAlert_iff_critical_witness :
    (runDiagnostics pFourHundred [] "t").safetyAlert = none :=
  (safetyAlert_iff_critical pFourHundred [] "t").2 (by decide)

/-- C5: the recommendations of every diagnosis are non-decreasingly ordered by
priority: for indices `i ≤ j`, `recommendations[i].priority ≤ recommendations[j].priority`. -/
theorem recommendations_sorted_by_priority (p : Project) (ms : List Measurement) (now : String) :
    ∀ i j : Fin (runDiagnostics p ms now).recommendations.length,
      (i : ℕ) ≤ (j : ℕ) →
      ((runDiagnostics p ms now).recommendations.get i).priority ≤
        ((runDiagnostics p ms now).recommendations.get j).priority := by
  have hp : (runDiagnostics p ms now).recommendations.Pairwise
      (fun a b => a.priority ≤ b.priority) := by
    cases ms with
    | nil => simp [runDiagnostics]
    | cons m rest =>
      rw [runDiagnostics_cons_recs]
      refine List.Pairwise.imp (fun h => of_decide_eq_true h)
        (List.sorted_mergeSort ?_ ?_ (allRecs p m rest))
      · intro a b c hab hbc
        simp only [decide_eq_true_eq] at hab hbc ⊢
        omega
      · intro a b
        simp only [Bool.or_eq_true, decide_eq_true_eq]
        omega
  intro i j hij
  rcases Nat.lt_or_ge (i : ℕ) (j : ℕ) with h | h
  · exact List.pairwise_iff_get.mp hp i j h
  · have hji : (i : ℕ) = (j : ℕ) := le_antisymm hij h
    have : i = j := Fin.ext hji
    subst this
    exact le_refl _

/-- C5 witness: the sortedness theorem applied at a concrete input and index pair. -/
theorem recommendations_sorted_by_priority_witness :
    ((runDiagnostics pFourHundred [] "t").recommendations.get
        ⟨0, by decide⟩).priority ≤
      ((runDiagnostics pFourHundred [] "t").recommendations.get
        ⟨0, by decide⟩).priority :=
  recommendations_sorted_by_priority pFourHundred [] "t" ⟨0, by decide⟩ ⟨0, by decide⟩
    (le_refl 0)

/-- C6: for a project that is not three-phase and a newest measurement missing at
least one phase, the diagnosis contains no `VOLTAGE_IMBALANCE` and no
`CURRENT_IMBALANCE` issue. -/
theorem no_imbalance_when_not_threePhase (p : Project) (m : Measurement)
    (rest : List Measurement) (now : String)
    (hsys : p.systemType ≠ SystemType.threePhase)
    (hmiss : m.phaseA = none ∨ m.phaseB = none ∨ m.phaseC = none) :
    ∀ i ∈ (runDiagnostics p (m :: rest) now).issues,
      i.code ≠ "VOLTAGE_IMBALANCE" ∧ i.code ≠ "CURRENT_IMBALANCE" := by
  intro i hi
  rw [runDiagnostics_cons_issues] at hi
  rcases allIssues_code p m rest i hi with h | h | h
  · rcases h with h | h | h | h | h | h | h | h | h | h | h | h | h <;> rw [h] <;>
      exact ⟨by decide, by decide⟩
  · exact absurd h.1 hsys
  · rcases h.2 with h2 | h2 <;> rw [h2] <;> exact ⟨by decide, by decide⟩

/-- C6 witness: applied to a single-phase project and a measurement with no
phases, at the critical-temperature issue it emits. -/
theorem no_imbalance_when_not_threePhase_witness :
    (criticalTempIssue "System").code ≠ "VOLTAGE_IMBALANCE" ∧
    (criticalTempIssue "System").code ≠ "CURRENT_IMBALANCE" :=
  no_imbalance_when_not_threePhase pFourHundred mTemp90 [] "t" (by decide) (Or.inl rfl)
    (criticalTempIssue "System") (by decide)

/-- C2: for each present phase with measured voltage `v` and
`drop% = (V − v)/V × 100`: `|drop| > 15` gives a critical voltage issue for that
phase, `10 < |drop| ≤ 15` a warning one, and `|drop| ≤ 10` no voltage issue for
that phase. -/
theorem voltage_drop_severity (p : Project) (m : Measurement) (rest : List Measurement)
    (now : String) :
    (∀ ph, m.phaseA = some ph →
      (15 < |specVoltageDrop p.voltageRating ph.voltage| →
        ((runDiagnostics p (m :: rest) now).issues.filter
            (fun i => i.code == "VOLTAGE_OUT_OF_RANGE_A")).map Issue.severity =
          [Severity.critical]) ∧
      (10 < |specVoltageDrop p.voltageRating ph.voltage| ∧
          |specVoltageDrop p.voltageRating ph.voltage| ≤ 15 →
        ((runDiagnostics p (m :: rest) now).issues.filter
            (fun i => i.code == "VOLTAGE_OUT_OF_RANGE_A")).map Issue.severity =
          [Severity.warning]) ∧
      (|specVoltageDrop p.voltageRating ph.voltage| ≤ 10 →
        (runDiagnostics p (m :: rest) now).issues.filter
            (fun i => i.code == "VOLTAGE_OUT_OF_RANGE_A") = [])) ∧
    (∀ ph, m.phaseB = some ph →
      (15 < |specVoltageDrop p.voltageRating ph.voltage| →
        ((runDiagnostics p (m :: rest) now).issues.filter
            (fun i => i.code == "VOLTAGE_OUT_OF_RANGE_B")).map Issue.severity =
          [Severity.critical]) ∧
      (10 < |specVoltageDrop p.voltageRating ph.voltage| ∧
          |specVoltageDrop p.voltageRating ph.voltage| ≤ 15 →
        ((runDiagnostics p (m :: rest) now).issues.filter
            (fun i => i.code == "VOLTAGE_OUT_OF_RANGE_B")).map Issue.severity =
          [Severity.warning]) ∧
      (|specVoltageDrop p.voltageRating ph.voltage| ≤ 10 →
        (runDiagnostics p (m :: rest) now).issues.filter
            (fun i => i.code == "VOLTAGE_OUT_OF_RANGE_B") = [])) ∧
    (∀ ph, m.phaseC = some ph →
      (15 < |specVoltageDrop p.voltageRating ph.voltage| →
        ((runDiagnostics p (m :: rest) now).issues.filter
            (fun i => i.code == "VOLTAGE_OUT_OF_RANGE_C")).map Issue.severity =
          [Severity.critical]) ∧
      (10 < |specVoltageDrop p.voltageRating ph.voltage| ∧
          |specVoltageDrop p.voltageRating ph.voltage| ≤ 15 →
        ((runDiagnostics p (m :: rest) now).issues.filter
            (fun i => i.code == "VOLTAGE_OUT_OF_RANGE_C")).map Issue.severity =
          [Severity.warning]) ∧
      (|specVoltageDrop p.voltageRating ph.voltage| ≤ 10 →
        (runDiagnostics p (m :: rest) now).issues.filter
            (fun i => i.code == "VOLTAGE_OUT_OF_RANGE_C") = [])) := by
  refine ⟨?_, ?_, ?_⟩
  · intro ph hA
    have hd := calculateVoltageDrop_eq_spec p.voltageRating ph.voltage
    have hfilter : (runDiagnostics p (m :: rest) now).issues.filter
        (fun i => i.code == "VOLTAGE_OUT_OF_RANGE_A") =
        (if 10 < |specVoltageDrop p.voltageRating ph.voltage|
         then [voltageIssueA (specVoltageDrop p.voltageRating ph.voltage)] else []) := by
      rw [runDiagnostics_cons_issues, allIssues_filter_voltage p m rest _ (Or.inl rfl),
        checkVoltageIssues_filterA, hA]
      dsimp only
      rw [hd]
    refine ⟨?_, ?_, ?_⟩
    · intro h15
      rw [hfilter, if_pos (lt_trans (by norm_num) h15)]
      simp only [List.map_cons, List.map_nil, voltageIssueA]
      rw [if_pos h15]
    · intro h
      rw [hfilter, if_pos h.1]
      simp only [List.map_cons, List.map_nil, voltageIssueA]
      rw [if_neg (not_lt.mpr h.2)]
    · intro h10
      rw [hfilter, if_neg (not_lt.mpr h10)]
  · intro ph hB
    have hd := calculateVoltageDrop_eq_spec p.voltageRating ph.voltage
    have hfilter : (runDiagnostics p (m :: rest) now).issues.filter
        (fun i => i.code == "VOLTAGE_OUT_OF_RANGE_B") =
        (if 10 < |specVoltageDrop p.voltageRating ph.voltage|
         then [voltageIssueB (specVoltageDrop p.voltageRating ph.voltage)] else []) := by
      rw [runDiagnostics_cons_issues,
        allIssues_filter_voltage p m rest _ (Or.inr (Or.inl rfl)),
        checkVoltageIssues_filterB, hB]
      dsimp only
      rw [hd]
    refine ⟨?_, ?_, ?_⟩
    · intro h15
      rw [hfilter, if_pos (lt_trans (by norm_num) h15)]
      simp only [List.map_cons, List.map_nil, voltageIssueB]
      rw [if_pos h15]
    · intro h
      rw [hfilter, if_pos h.1]
      simp only [List.map_cons, List.map_nil, voltageIssueB]
      rw [if_neg (not_lt.mpr h.2)]
    · intro h10
      rw [hfilter, if_neg (not_lt.mpr h10)]
  · intro ph hC
    have hd := calculateVoltageDrop_eq_spec p.voltageRating ph.voltage
    have hfilter : (runDiagnostics p (m :: rest) now).issues.filter
        (fun i => i.code == "VOLTAGE_OUT_OF_RANGE_C") =
        (if 10 < |specVoltageDrop p.voltageRating ph.voltage|
         then [voltageIssueC (specVoltageDrop p.voltageRating ph.voltage)] else []) := by
      rw [runDiagnostics_cons_issues,
        allIssues_filter_voltage p m rest _ (Or.inr (Or.inr rfl)),
        checkVoltageIssues_filterC, hC]
      dsimp only
      rw [hd]
    refine ⟨?_, ?_, ?_⟩
    · intro h15
      rw [hfilter, if_pos (lt_trans (by norm_num) h15)]
      simp only [List.map_cons, List.map_nil, voltageIssueC]
      rw [if_pos h15]
    · intro h
      rw [hfilter, if_pos h.1]
      simp only [List.map_cons, List.map_nil, voltageIssueC]
      rw [if_neg (not_lt.mpr h.2)]
    · intro h10
      rw [hfilter, if_neg (not_lt.mpr h10)]

/-- C2 witness: a 400 V nominal with phase A at 300 V is a 25 % drop, tagged
critical. -/
theorem voltage_drop_severity_witness :
    ((runDiagnostics pFourHundred [mPhaseA300] "t").issues.filter
        (fun i => i.code == "VOLTAGE_OUT_OF_RANGE_A")).map Issue.severity =
      [Severity.critical] :=
  ((voltage_drop_severity pFourHundred mPhaseA300 [] "t").1
    { voltage := 300, current := 10, power := none, temperature := none } rfl).1
    (by rw [show specVoltageDrop pFourHundred.voltageRating
        ({ voltage := 300, current := 10, power := none,
           temperature := none : PhaseMeasurement }).voltage = 25 by
          norm_num [specVoltageDrop, pFourHundred]]
        norm_num)

/-- C3 counterexample: phase B measured at 300 V against a 400 V nominal is a
25 % drop (even in the critical range), the phase-B voltage issue is emitted,
yet the diagnosis contains no recommendation at all — the source only pushes a
voltage recommendation for phase A. -/
theorem voltage_recommendation_cex :
    15 < |specVoltageDrop pFourHundred.voltageRating 300| ∧
    (runDiagnostics pFourHundred [mPhaseB300] "t").issues.map Issue.code =
      ["VOLTAGE_OUT_OF_RANGE_B"] ∧
    (runDiagnostics pFourHundred [mPhaseB300] "t").recommendations = [] := by
  refine ⟨?_, ?_, ?_⟩
  · rw [show specVoltageDrop pFourHundred.voltageRating 300 = 25 by
      norm_num [specVoltageDrop, pFourHundred]]
    norm_num
  · norm_num [runDiagnostics, checkVoltageIssues, checkCurrentIssues, checkPhaseImbalance,
      checkTemperatureIssues, checkGroundingIssues, checkPowerQuality, analyzeTrends,
      checkComponentTemp, phaseTempPart, checkPhaseOvercurrent, calculateVoltageDrop,
      voltageIssueB, pFourHundred, mPhaseB300, blankMeasurement, overallSeverity,
      tempSamples, currentSamples, NEUTRAL_CURRENT_LIMIT]
  · rw [runDiagnostics_cons_recs]
    have h2 : allRecs pFourHundred mPhaseB300 [] = [] := by
      norm_num [allRecs, checkVoltageIssues, checkCurrentIssues, checkPhaseImbalance,
        checkTemperatureIssues, checkGroundingIssues, checkPowerQuality, analyzeTrends,
        checkComponentTemp, phaseTempPart, checkPhaseOvercurrent, calculateVoltageDrop,
        pFourHundred, mPhaseB300, blankMeasurement, tempSamples, currentSamples,
        NEUTRAL_CURRENT_LIMIT]
    rw [h2, List.mergeSort_nil]

/-- C3 amended: when phase A is present and its voltage-drop magnitude exceeds
10 %, the evaluator adds the phase-A recommendation with priority 1 if the drop
magnitude exceeds 15 % and 2 otherwise; the voltage check adds at most one
recommendation in total, and none when phase A is absent (phases B and C only
ever contribute the issue). -/
theorem voltage_recommendation_phaseA_only (p : Project) (m : Measurement)
    (rest : List Measurement) (now : String) :
    (∀ ph, m.phaseA = some ph → 10 < |specVoltageDrop p.voltageRating ph.voltage| →
      voltageRecommendationA (calculateVoltageDrop p.voltageRating ph.voltage) ∈
        (runDiagnostics p (m :: rest) now).recommendations ∧
      (voltageRecommendationA (calculateVoltageDrop p.voltageRating ph.voltage)).priority =
        (if 15 < |specVoltageDrop p.voltageRating ph.voltage| then 1 else 2)) ∧
    (checkVoltageIssues p m).2.length ≤ 1 ∧
    (m.phaseA = none → (checkVoltageIssues p m).2 = []) := by
  refine ⟨?_, ?_, ?_⟩
  · intro ph hA h10
    have hd := calculateVoltageDrop_eq_spec p.voltageRating ph.voltage
    constructor
    · rw [runDiagnostics_cons_recs, List.mem_mergeSort]
      simp only [allRecs, List.mem_append]
      left; left; left; left; left; left
      rw [checkVoltageIssues_rec_eq, hA]
      dsimp only
      rw [hd, if_pos h10]
      simp
    · simp only [voltageRecommendationA]
      rw [hd]
  · rw [checkVoltageIssues_rec_eq]
    rcases m.phaseA with _ | ph
    · simp
    · dsimp only
      split_ifs <;> simp
  · intro hA
    rw [checkVoltageIssues_rec_eq, hA]

/-- C3 amended witness: phase A at 300 V on a 400 V nominal (25 % drop) yields
the phase-A recommendation with priority 1. -/
theorem voltage_recommendation_phaseA_only_witness :
    voltageRecommendationA
        (calculateVoltageDrop pFourHundred.voltageRating
          ({ voltage := 300, current := 10, power := none,
             temperature := none : PhaseMeasurement }).voltage) ∈
      (runDiagnostics pFourHundred [mPhaseA300] "t").recommendations ∧
    (voltageRecommendationA
        (calculateVoltageDrop pFourHundred.voltageRating
          ({ voltage := 300, current := 10, power := none,
             temperature := none : PhaseMeasurement }).voltage)).priority =
      (if 15 < |specVoltageDrop pFourHundred.voltageRating
          ({ voltage := 300, current := 10, power := none,
             temperature := none : PhaseMeasurement }).voltage| then 1 else 2) :=
  (voltage_recommendation_phaseA_only pFourHundred mPhaseA300 [] "t").1
    { voltage := 300, current := 10, power := none, temperature := none } rfl
    (by rw [show specVoltageDrop pFourHundred.voltageRating
        ({ voltage := 300, current := 10, power := none,
           temperature := none : PhaseMeasurement }).voltage = 25 by
          norm_num [specVoltageDrop, pFourHundred]]
        norm_num)

/-- C7 counterexample: a 6-long history whose filtered temperature list is
`[55, 40]` (delta 15 > 10 °C) emits NO temperature-trend issue, because the
source additionally requires more than 3 filtered samples. -/
theorem temperature_trend_cex :
    msTempSparse.length = 6 ∧
    tempSamples msTempSparse = [55, 40] ∧
    10 < (tempSamples msTempSparse).headD 0 - (tempSamples msTempSparse).getLastD 0 ∧
    (runDiagnostics pFourHundred msTempSparse "t").issues = [] := by
  refine ⟨rfl, by decide, ?_, by decide⟩
  rw [show tempSamples msTempSparse = [55, 40] from by decide]
  norm_num

/-- C7 amended: for histories longer than 5, the temperature-trend warning and
its priority-2 monitoring recommendation are emitted whenever the filtered
temperature list has MORE THAN 3 entries and its first element minus its last
exceeds 10 °C; histories of length at most 5 never yield a trend issue. -/
theorem temperature_trend_conditions (p : Project) (ms : List Measurement) (now : String) :
    (ms.length > 5 → (tempSamples ms).length > 3 →
      10 < (tempSamples ms).headD 0 - (tempSamples ms).getLastD 0 →
      tempTrendIssue ∈ (runDiagnostics p ms now).issues ∧
      tempTrendRecommendation ∈ (runDiagnostics p ms now).recommendations ∧
      tempTrendIssue.severity = Severity.warning ∧
      tempTrendIssue.code = "TEMPERATURE_TREND" ∧
      tempTrendRecommendation.priority = 2) ∧
    (ms.length ≤ 5 →
      ∀ i ∈ (runDiagnostics p ms now).issues, i.code ≠ "TEMPERATURE_TREND") := by
  constructor
  · intro h5 h3 h10
    cases ms with
    | nil => simp at h5
    | cons m rest =>
      refine ⟨?_, ?_, rfl, rfl, rfl⟩
      · rw [runDiagnostics_cons_issues]
        simp only [allIssues, List.mem_append]
        right
        rw [if_pos h5]
        simp only [analyzeTrends, List.mem_append]
        left
        rw [if_pos h3, if_pos h10]
        simp
      · rw [runDiagnostics_cons_recs, List.mem_mergeSort]
        simp only [allRecs, List.mem_append]
        right
        rw [if_pos h5]
        simp only [analyzeTrends, List.mem_append]
        left
        rw [if_pos h3, if_pos h10]
        simp
  · intro hle i hi
    cases ms with
    | nil =>
      simp only [runDiagnostics] at hi
      simp at hi
      subst hi
      decide
    | cons m rest =>
      rw [runDiagnostics_cons_issues] at hi
      rcases allIssues_code p m rest i hi with h | h | h
      · rcases h with h | h | h | h | h | h | h | h | h | h | h | h | h <;> rw [h] <;> decide
      · rcases h.2 with h2 | h2 <;> rw [h2] <;> decide
      · exact absurd h.1 (by omega)

/-- C7 amended witness: five filtered temperatures falling from 55 °C to 40 °C
over a 6-long history trigger the trend issue and recommendation. -/
theorem temperature_trend_conditions_witness :
    tempTrendIssue ∈ (runDiagnostics pFourHundred msTempDense "t").issues ∧
    tempTrendRecommendation ∈ (runDiagnostics pFourHundred msTempDense "t").recommendations ∧
    tempTrendIssue.severity = Severity.warning ∧
    tempTrendIssue.code = "TEMPERATURE_TREND" ∧
    tempTrendRecommendation.priority = 2 :=
  (temperature_trend_conditions pFourHundred msTempDense "t").1 (by decide) (by decide)
    (by rw [show tempSamples msTempDense = [55, 54, 42, 41, 40] from by decide]
        norm_num)

/-- C8 counterexample: a 6-long history whose NEWEST measurement lacks phase A
emits no current-trend issue even though the filtered phase-A current samples
`[50, 45, 42, 40, 40]` show a 25 % change (> 20 %). -/
theorem current_trend_cex :
    msCurrentNoHead.length = 6 ∧
    (msCurrentNoHead.headD blankMeasurement).phaseA = none ∧
    currentSamples msCurrentNoHead = [50, 45, 42, 40, 40] ∧
    20 < ((currentSamples msCurrentNoHead).headD 0 -
        (currentSamples msCurrentNoHead).getLastD 0) /
        (currentSamples msCurrentNoHead).getLastD 0 * 100 ∧
    (runDiagnostics pHundred msCurrentNoHead "t").issues = [] := by
  refine ⟨rfl, rfl, by decide, ?_, by decide⟩
  rw [show currentSamples msCurrentNoHead = [50, 45, 42, 40, 40] from by decide]
  norm_num

/-- C8 amended: when the NEWEST measurement has phase A and the filtered phase-A
current samples number more than 3, a percent change above 20 % yields the
`CURRENT_TREND` info issue; the trend check's current branch never adds a
recommendation (every trend recommendation is the temperature one). -/
theorem current_trend_conditions (p : Project) (m : Measurement) (rest : List Measurement)
    (now : String) :
    (∀ ph, m.phaseA = some ph → (m :: rest).length > 5 →
      (currentSamples (m :: rest)).length > 3 →
      20 < ((currentSamples (m :: rest)).headD 0 - (currentSamples (m :: rest)).getLastD 0) /
          (currentSamples (m :: rest)).getLastD 0 * 100 →
      currentTrendIssue ∈ (runDiagnostics p (m :: rest) now).issues ∧
      currentTrendIssue.severity = Severity.info ∧
      currentTrendIssue.code = "CURRENT_TREND") ∧
    (∀ r ∈ (analyzeTrends (m :: rest)).2, r = tempTrendRecommendation) := by
  constructor
  · intro ph hA h5 h3 h20
    refine ⟨?_, rfl, rfl⟩
    rw [runDiagnostics_cons_issues]
    simp only [allIssues, List.mem_append]
    right
    rw [if_pos h5]
    simp only [analyzeTrends, List.mem_append, List.head?_cons]
    right
    simp only [hA]
    rw [if_pos h3, if_pos h20]
    simp
  · exact analyzeTrends_rec (m :: rest)

/-- C8 amended witness: six measurements all sampling phase A, with a 25 %
current change, trigger the current-trend info issue. -/
theorem current_trend_conditions_witness :
    currentTrendIssue ∈ (runDiagnostics pHundred msCurrentDense "t").issues ∧
    currentTrendIssue.severity = Severity.info ∧
    currentTrendIssue.code = "CURRENT_TREND" :=
  (current_trend_conditions pHundred (withPhaseA 100 50)
    [withPhaseA 100 45, withPhaseA 100 42, withPhaseA 100 41, withPhaseA 100 40,
     withPhaseA 100 40] "t").1
    { voltage := 100, current := 50, power := none, temperature := none } rfl
    (by decide) (by decide)
    (by rw [show currentSamples (withPhaseA 100 50 ::
        [withPhaseA 100 45, withPhaseA 100 42, withPhaseA 100 41, withPhaseA 100 40,
         withPhaseA 100 40]) = [50, 45, 42, 41, 40, 40] from by decide]
        norm_num)

/-- Helper: a zero three-phase average forces a zero imbalance result. -/
theorem calculatePhaseImbalance_eq_zero (a b c : ℚ) (h : (a + b + c) / 3 = 0) :
    calculatePhaseImbalance a b c = 0 := by
  unfold calculatePhaseImbalance
  dsimp only
  rw [if_pos h]

/-- C9: the evaluator is total with no division fault: a zero nominal voltage is
treated as a 0 % drop (no voltage issue for any phase), a zero three-phase
average yields a 0 % imbalance (no corresponding imbalance issue), and a fully
missing measurement skips every check. -/
theorem zero_guard_totality :
    (∀ v : ℚ, calculateVoltageDrop 0 v = 0) ∧
    (∀ a b c : ℚ, (a + b + c) / 3 = 0 → calculatePhaseImbalance a b c = 0) ∧
    (∀ (p : Project) (m : Measurement), p.voltageRating = 0 →
      checkVoltageIssues p m = ([], [])) ∧
    (∀ (m : Measurement) pa pb pc, m.phaseA = some pa → m.phaseB = some pb →
      m.phaseC = some pc →
      ((pa.voltage + pb.voltage + pc.voltage) / 3 = 0 →
        ∀ i ∈ (checkPhaseImbalance m).1, i.code ≠ "VOLTAGE_IMBALANCE") ∧
      ((pa.current + pb.current + pc.current) / 3 = 0 →
        ∀ i ∈ (checkPhaseImbalance m).1, i.code ≠ "CURRENT_IMBALANCE")) ∧
    (∀ (p : Project) (now : String),
      (runDiagnostics p [blankMeasurement] now).issues = [] ∧
      (runDiagnostics p [blankMeasurement] now).recommendations = []) := by
  refine ⟨?_, calculatePhaseImbalance_eq_zero, ?_, ?_, ?_⟩
  · intro v
    unfold calculateVoltageDrop
    rw [if_pos rfl]
  · intro p m h
    rcases hA : m.phaseA with _ | pa <;> rcases hB : m.phaseB with _ | pb <;>
      rcases hC : m.phaseC with _ | pc <;>
      norm_num [checkVoltageIssues, hA, hB, hC, h, calculateVoltageDrop]
  · intro m pa pb pc hA hB hC
    constructor
    · intro hz i hi
      have himb := calculatePhaseImbalance_eq_zero pa.voltage pb.voltage pc.voltage hz
      simp only [checkPhaseImbalance, hA, hB, hC] at hi
      rw [himb] at hi
      rw [List.mem_append] at hi
      rcases hi with hi | hi
      · split_ifs at hi with h
        · exact absurd h (by norm_num [PHASE_IMBALANCE_LIMIT])
        · simp at hi
      · split_ifs at hi
        · simp at hi
          subst hi
          simp [currentImbalanceIssue]
        · simp at hi
    · intro hz i hi
      have himb := calculatePhaseImbalance_eq_zero pa.current pb.current pc.current hz
      simp only [checkPhaseImbalance, hA, hB, hC] at hi
      rw [himb] at hi
      rw [List.mem_append] at hi
      rcases hi with hi | hi
      · split_ifs at hi
        · simp at hi
          subst hi
          simp [voltageImbalanceIssue]
        · simp at hi
      · split_ifs at hi with h
        · exact absurd h (by norm_num)
        · simp at hi
  · intro p now
    constructor
    · rw [runDiagnostics_cons_issues]
      simp [allIssues, checkVoltageIssues, checkCurrentIssues, checkPhaseOvercurrent,
        checkPhaseImbalance, checkTemperatureIssues, checkComponentTemp, phaseTempPart,
        checkGroundingIssues, checkPowerQuality, analyzeTrends, blankMeasurement,
        tempSamples, currentSamples]
    · rw [runDiagnostics_cons_recs]
      have h2 : allRecs p blankMeasurement [] = [] := by
        simp [allRecs, checkVoltageIssues, checkCurrentIssues, checkPhaseOvercurrent,
          checkPhaseImbalance, checkTemperatureIssues, checkComponentTemp, phaseTempPart,
          checkGroundingIssues, checkPowerQuality, analyzeTrends, blankMeasurement,
          tempSamples, currentSamples]
      rw [h2, List.mergeSort_nil]

/-- C9 witness: the zero-guard theorem applied at concrete inputs. -/
theorem zero_guard_totality_witness :
    calculateVoltageDrop 0 5 = 0 ∧
    calculatePhaseImbalance 1 (-1) 0 = 0 ∧
    checkVoltageIssues pZero blankMeasurement = ([], []) :=
  ⟨zero_guard_totality.1 5,
   zero_guard_totality.2.1 1 (-1) 0 (by norm_num),
   zero_guard_totality.2.2.1 pZero blankMeasurement rfl⟩

/-- C10: every recommendation in any diagnosis, and every recommendation any
individual check emits, has priority 1, 2, 3 or 4. -/
theorem recommendation_priorities_bounded :
    (∀ (p : Project) (ms : List Measurement) (now : String),
      ∀ r ∈ (runDiagnostics p ms now).recommendations,
        r.priority = 1 ∨ r.priority = 2 ∨ r.priority = 3 ∨ r.priority = 4) ∧
    (∀ (p : Project) (m : Measurement), ∀ r ∈ (checkVoltageIssues p m).2,
      r.priority = 1 ∨ r.priority = 2 ∨ r.priority = 3 ∨ r.priority = 4) ∧
    (∀ m : Measurement, ∀ r ∈ (checkCurrentIssues m).2,
      r.priority = 1 ∨ r.priority = 2 ∨ r.priority = 3 ∨ r.priority = 4) ∧
    (∀ m : Measurement, ∀ r ∈ (checkPhaseImbalance m).2,
      r.priority = 1 ∨ r.priority = 2 ∨ r.priority = 3 ∨ r.priority = 4) ∧
    (∀ m : Measurement, ∀ r ∈ (checkTemperatureIssues m).2,
      r.priority = 1 ∨ r.priority = 2 ∨ r.priority = 3 ∨ r.priority = 4) ∧
    (∀ m : Measurement, ∀ r ∈ (checkGroundingIssues m).2,
      r.priority = 1 ∨ r.priority = 2 ∨ r.priority = 3 ∨ r.priority = 4) ∧
    (∀ m : Measurement, ∀ r ∈ (checkPowerQuality m).2,
      r.priority = 1 ∨ r.priority = 2 ∨ r.priority = 3 ∨ r.priority = 4) ∧
    (∀ ms : List Measurement, ∀ r ∈ (analyzeTrends ms).2,
      r.priority = 1 ∨ r.priority = 2 ∨ r.priority = 3 ∨ r.priority = 4) := by
  refine ⟨?_, ?_, ?_, ?_, ?_, ?_, ?_, ?_⟩
  · intro p ms now r hr
    cases ms with
    | nil =>
      simp only [runDiagnostics] at hr
      simp at hr
      subst hr
      left; rfl
    | cons m rest =>
      rw [runDiagnostics_cons_recs, List.mem_mergeSort] at hr
      exact allRecs_priority p m rest r hr
  · intro p m r hr
    rcases checkVoltageIssues_rec p m r hr with h | h <;> simp [h]
  · intro m r hr
    rcases checkCurrentIssues_rec m r hr with h | h | h <;> simp [h]
  · intro m r hr
    rcases checkPhaseImbalance_rec m r hr with h | h <;> simp [h]
  · intro m r hr
    simp [checkTemperatureIssues_rec m r hr]
  · intro m r hr
    rcases checkGroundingIssues_rec m r hr with h | h <;> simp [h]
  · intro m r hr
    simp [checkPowerQuality_rec m r hr]
  · intro ms r hr
    rw [analyzeTrends_rec ms r hr]
    right; left; rfl

/-- C10 witness: applied to the `NO_DATA` recommendation of an empty history. -/
theorem recommendation_priorities_bounded_witness :
    noDataRecommendation.priority = 1 ∨ noDataRecommendation.priority = 2 ∨
    noDataRecommendation.priority = 3 ∨ noDataRecommendation.priority = 4 :=
  recommendation_priorities_bounded.1 pFourHundred [] "t" noDataRecommendation (by decide)
